import Mathlib

/-!
rp-git: the Git clone plugin

A shallow embedding of `src/main.go` (the `Plugin` methods `ExecuteTask`,
`EndpointRequest` and `Info`) and the properties of its behaviour.

The two outside calls of `ExecuteTask` (`executions.UpdateStep` and
`git.PlainClone`) and the clock are taken as functions of the history of
outside calls made so far, so that every theorem holds for whatever the host
and the git transport answer.  The calls made, with their answers, are kept in
a trace.  A Go `error` is its message, `nil` is `none`.
-/

namespace RpGit

/-! ## Data model -/

/-- A Go `error` value, identified with the text `Error()` gives. -/
structure GoError where
  msg : String
  deriving DecidableEq, Repr

/-- The method `err.Error()`. -/
def GoError.Error (e : GoError) : String := e.msg

/-- The call `errors.New(text)`. -/
def errorsNew (text : String) : GoError := ⟨text⟩

/-- The struct `models.Params`, with the fields the plugin reads or writes
(`Type_` is the Go field `Type`). -/
structure Params where
  Key : String := ""
  Title : String := ""
  Type_ : String := ""
  Value : String := ""
  Default : String := ""
  Required : Bool := false
  Description : String := ""
  Category : String := ""
  deriving DecidableEq, Repr

/-- The struct `models.Action`. -/
structure Action where
  Name : String := ""
  Description : String := ""
  Plugin : String := ""
  Icon : String := ""
  Category : String := ""
  Params : List Params := []
  deriving DecidableEq, Repr

/-- The struct `models.Endpoint`; the plugin only builds its zero value. -/
structure Endpoint where
  mk ::
  deriving DecidableEq, Repr

/-- The struct `models.Plugin`, the descriptor `Info` returns. -/
structure PluginInfo where
  Name : String := ""
  Type_ : String := ""
  Version : String := ""
  Author : String := ""
  Action : Action := {}
  Endpoint : Endpoint := {}
  deriving DecidableEq, Repr

/-- The struct `models.Line`. -/
structure Line where
  Content : String := ""
  Color : String := ""
  deriving DecidableEq, Repr

/-- The struct `models.Message`. -/
structure Message where
  Title : String := ""
  Lines : List Line := []
  deriving DecidableEq, Repr

/-- The struct `models.ExecutionSteps`: a step of the request and the record
sent to `executions.UpdateStep`.  A time field left unset is `none`. -/
structure ExecutionSteps where
  ID : String := ""
  Action : Action := {}
  Messages : List Message := []
  Status : String := ""
  StartedAt : Option Nat := none
  FinishedAt : Option Nat := none
  deriving DecidableEq, Repr

/-- The execution of the request; `ID` is the text `Execution.ID.String()`. -/
structure Executions where
  ID : String := ""
  deriving DecidableEq, Repr

/-- The struct `plugins.ExecuteTaskRequest`; the type of the host configuration
is a parameter. -/
structure ExecuteTaskRequest (Cfg : Type) where
  Config : Cfg
  Execution : Executions := {}
  Step : ExecutionSteps := {}
  Workspace : String := ""
  Platform : String := ""

/-- The struct `plugins.EndpointRequest`; the plugin reads none of its fields. -/
structure EndpointRequestArgs (Cfg : Type) where
  Config : Cfg

/-- The struct `plugins.InfoRequest`. -/
structure InfoRequest (Cfg : Type) where
  Config : Cfg
  Workspace : String := ""

/-- The struct `plugins.Response`. -/
structure Response where
  Success : Bool := false
  deriving DecidableEq, Repr

/-- The struct `http.BasicAuth`. -/
structure BasicAuth where
  Username : String := ""
  Password : String := ""
  deriving DecidableEq, Repr

/-- Where clone progress is written; the plugin only uses `os.Stdout`. -/
inductive Writer where
  | Stdout
  deriving DecidableEq, Repr

/-- The struct `git.CloneOptions`, with the fields the plugin sets. -/
structure CloneOptions where
  Auth : BasicAuth := {}
  URL : String := ""
  Progress : Writer := Writer.Stdout
  deriving DecidableEq, Repr

/-- The arguments of one call `git.PlainClone(path, isBare, o)`. -/
structure CloneCall where
  path : String
  isBare : Bool
  o : CloneOptions
  deriving DecidableEq, Repr

/-- The arguments of one call `executions.UpdateStep(cfg, executionID, step, platform)`. -/
structure UpdateCall (Cfg : Type) where
  cfg : Cfg
  executionID : String
  step : ExecutionSteps
  platform : String
  deriving DecidableEq

/-- One outside call made by `ExecuteTask`, with the error it returned. -/
inductive Event (Cfg : Type) where
  | update (call : UpdateCall Cfg) (result : Option GoError)
  | clone (call : CloneCall) (result : Option GoError)
  deriving DecidableEq

/-- The outside world of one `ExecuteTask` run: each answer may depend on all
the calls made before it. -/
structure World (Cfg : Type) where
  UpdateStep : List (Event Cfg) → UpdateCall Cfg → Option GoError
  PlainClone : List (Event Cfg) → CloneCall → Option GoError
  Now : List (Event Cfg) → Nat

/-- What a run of `ExecuteTask` gives: the two returned values and the outside
calls it made, in order. -/
structure Outcome (Cfg : Type) where
  resp : Response
  err : Option GoError
  trace : List (Event Cfg)
  deriving DecidableEq

/-! ## Parameter extraction (`main.go` lines 22-45) -/

/-- The five local variables of `ExecuteTask`. -/
structure Vars where
  url : String := ""
  directory : String := ""
  username : String := ""
  password : String := ""
  token : String := ""
  deriving DecidableEq, Repr

/-- One pass of the body of the loop over `request.Step.Action.Params`. -/
def paramStep (workspace : String) (v : Vars) (param : Params) : Vars :=
  let v := if param.Key = "url" then { v with url := param.Value } else v
  let v := if param.Key = "directory" then
    { v with directory := workspace ++ "/" ++ param.Value } else v
  let v := if param.Key = "username" then { v with username := param.Value } else v
  let v := if param.Key = "password" then { v with password := param.Value } else v
  let v := if param.Key = "token" then { v with token := param.Value } else v
  v

/-- The loop over the parameters, from the five empty strings. -/
def extractParams (workspace : String) (params : List Params) : Vars :=
  params.foldl (paramStep workspace) {}

/-! ## `ExecuteTask` -/

/-- The record of the first update (lines 48-62). -/
def runningStep (request : ExecuteTaskRequest Cfg) (v : Vars) (now : Nat) : ExecutionSteps :=
  { ID := request.Step.ID,
    Messages := [
      { Title := "Git",
        Lines := [
          { Content := "Cloning repository " ++ v.url ++ " to " ++ v.directory } ] } ],
    Status := "running",
    StartedAt := some now }

/-- The record of the update after a failed clone (lines 79-98 and 118-137). -/
def errorStep (request : ExecuteTaskRequest Cfg) (err : GoError) (now : Nat) : ExecutionSteps :=
  { ID := request.Step.ID,
    Messages := [
      { Title := "Git",
        Lines := [
          { Content := "Error cloning repository", Color := "danger" },
          { Content := err.Error, Color := "danger" } ] } ],
    Status := "error",
    FinishedAt := some now }

/-- The record of the last update (lines 149-164). -/
def successStep (request : ExecuteTaskRequest Cfg) (now : Nat) : ExecutionSteps :=
  { ID := request.Step.ID,
    Messages := [
      { Title := "Git",
        Lines := [
          { Content := "Repository cloned successfully", Color := "success" } ] } ],
    Status := "success",
    FinishedAt := some now }

/-- The call `executions.UpdateStep(request.Config, request.Execution.ID.String(), step, request.Platform)`. -/
def updateCall (request : ExecuteTaskRequest Cfg) (step : ExecutionSteps) : UpdateCall Cfg :=
  { cfg := request.Config, executionID := request.Execution.ID, step := step,
    platform := request.Platform }

/-- The tail of `ExecuteTask` after a clone that returned no error (lines 149-173). -/
def finishTask (w : World Cfg) (request : ExecuteTaskRequest Cfg) (t : List (Event Cfg)) :
    Outcome Cfg :=
  let call := updateCall request (successStep request (w.Now t))
  let err := w.UpdateStep t call
  let t := t ++ [Event.update call err]
  if err ≠ none then
    { resp := { Success := false }, err := err, trace := t }
  else
    { resp := { Success := true }, err := none, trace := t }

/-- The block run when a clone returned the error `cloneErr` (lines 78-107 and
117-146).  The update's result is bound by `err :=` to a new `err` that hides
the clone's one from the end of that statement on: the message is built from
the clone's error, both `return`s give the update's. -/
def reportCloneError (w : World Cfg) (request : ExecuteTaskRequest Cfg)
    (t : List (Event Cfg)) (cloneErr : GoError) : Outcome Cfg :=
  let call := updateCall request (errorStep request cloneErr (w.Now t))
  let err := w.UpdateStep t call
  let t := t ++ [Event.update call err]
  if err ≠ none then
    { resp := { Success := false }, err := err, trace := t }
  else
    { resp := { Success := false }, err := err, trace := t }

/-- The method `Plugin.ExecuteTask` (lines 21-174). -/
def ExecuteTask (w : World Cfg) (request : ExecuteTaskRequest Cfg) : Outcome Cfg :=
  let v := extractParams request.Workspace request.Step.Action.Params
  let call := updateCall request (runningStep request v (w.Now []))
  let err := w.UpdateStep [] call
  let t := [Event.update call err]
  if err ≠ none then
    { resp := { Success := false }, err := err, trace := t }
  else if v.token ≠ "" then
    let c : CloneCall :=
      { path := v.directory, isBare := false,
        o := { Auth := { Username := "abc123", Password := v.token },
               URL := v.url, Progress := Writer.Stdout } }
    let err := w.PlainClone t c
    let t := t ++ [Event.clone c err]
    match err with
    | some cloneErr => reportCloneError w request t cloneErr
    | none => finishTask w request t
  else
    let c : CloneCall :=
      { path := v.directory, isBare := false,
        o := { Auth := { Username := v.username, Password := v.password },
               URL := v.url, Progress := Writer.Stdout } }
    let err := w.PlainClone t c
    let t := t ++ [Event.clone c err]
    match err with
    | some cloneErr => reportCloneError w request t cloneErr
    | none => finishTask w request t

/-! ## `EndpointRequest` and `Info` -/

/-- The method `Plugin.EndpointRequest` (lines 176-180). -/
def EndpointRequest (_request : EndpointRequestArgs Cfg) : Response × Option GoError :=
  ({ Success := false }, some (errorsNew "not implemented"))

/-- The method `Plugin.Info` (lines 182-246). -/
def Info (request : InfoRequest Cfg) : PluginInfo × Option GoError :=
  let plugin : PluginInfo :=
    { Name := "Git",
      Type_ := "action",
      Version := "1.0.0",
      Author := "JustNZ",
      Action :=
        { Name := "Git",
          Description := "Clone a repository",
          Plugin := "git",
          Icon := "mdi:git",
          Category := "Utility",
          Params := [
            { Key := "url",
              Title := "URL",
              Type_ := "text",
              Default := "",
              Required := true,
              Description := "URL of the repository to clone",
              Category := "Repository" },
            { Key := "directory",
              Title := "Directory",
              Type_ := "text",
              Default := "",
              Required := true,
              Description :=
                "Path to clone the repository to. The path prefix is the workspace directory: "
                  ++ request.Workspace,
              Category := "Repository" },
            { Key := "username",
              Title := "Username",
              Type_ := "text",
              Default := "",
              Required := false,
              Description := "Username for authentication",
              Category := "Authentication" },
            { Key := "password",
              Title := "Password",
              Type_ := "password",
              Default := "",
              Required := false,
              Description := "Password for authentication",
              Category := "Authentication" },
            { Key := "token",
              Title := "Token",
              Type_ := "password",
              Default := "",
              Required := false,
              Description :=
                "Token for authentication. If provided, username and password will be ignored",
              Category := "Authentication" } ] },
      Endpoint := {} }
  (plugin, none)

/-! ## Reading a trace -/

/-- The step records sent to `executions.UpdateStep` during a run, in order. -/
def updatesOf (t : List (Event Cfg)) : List ExecutionSteps :=
  t.filterMap fun ev =>
    match ev with
    | Event.update call _ => some call.step
    | Event.clone _ _ => none

/-- The calls of `git.PlainClone` made during a run, in order. -/
def clonesOf (t : List (Event Cfg)) : List CloneCall :=
  t.filterMap fun ev =>
    match ev with
    | Event.update _ _ => none
    | Event.clone call _ => some call

/-- All the lines of all the messages of a step record. -/
def linesOf (step : ExecutionSteps) : List Line :=
  step.Messages.flatMap fun m => m.Lines

/-! ## The specification's reading of the parameter list -/

/-- The value of the last entry of the list whose key is exactly `k`, if there
is one. -/
def lastValue? (k : String) (params : List Params) : Option String :=
  ((params.filter fun p => p.Key = k).getLast?).map fun p => p.Value

/-- The value of the last entry with key `k`, the empty string when there is
none. -/
def lastValue (k : String) (params : List Params) : String :=
  (lastValue? k params).getD ""

/-- The destination of the clone as the parameter list gives it: the workspace,
a slash and the value of the last `directory` entry when there is one, the
empty string when there is none. -/
def resolvedDirectory (workspace : String) (params : List Params) : String :=
  match lastValue? "directory" params with
  | some d => workspace ++ "/" ++ d
  | none => ""

/-- A descriptor with the description of its `directory` parameter blanked. -/
def withoutDirectoryDescription (p : PluginInfo) : PluginInfo :=
  { p with
    Action :=
      { p.Action with
        Params := p.Action.Params.map fun q =>
          if q.Key = "directory" then { q with Description := "" } else q } }

/-! ## Concrete requests and worlds -/

/-- A world in which every update and the clone succeed. -/
def worldOk : World Unit :=
  { UpdateStep := fun _ _ => none, PlainClone := fun _ _ => none, Now := fun t => t.length }

/-- A world in which the clone fails with a 404 and every update succeeds. -/
def world404 : World Unit :=
  { UpdateStep := fun _ _ => none,
    PlainClone := fun _ _ => some (errorsNew "unexpected client error: 404 Not Found"),
    Now := fun t => t.length }

/-- A world in which the clone fails with a 404 and so does every update sent
after the first. -/
def world404Down : World Unit :=
  { UpdateStep := fun t _ => if t = [] then none else some (errorsNew "connection refused"),
    PlainClone := fun _ _ => some (errorsNew "unexpected client error: 404 Not Found"),
    Now := fun t => t.length }

/-- A world in which the clone succeeds and every update after the first fails. -/
def worldReportDown : World Unit :=
  { UpdateStep := fun t _ => if t = [] then none else some (errorsNew "connection refused"),
    PlainClone := fun _ _ => none,
    Now := fun t => t.length }

/-- A world in which every update fails. -/
def worldHostDown : World Unit :=
  { UpdateStep := fun _ _ => some (errorsNew "connection refused"),
    PlainClone := fun _ _ => none,
    Now := fun t => t.length }

/-- A request carrying the given parameters in the given workspace. -/
def requestOf (workspace : String) (params : List Params) : ExecuteTaskRequest Unit :=
  { Config := (), Execution := { ID := "exec-1" },
    Step := { ID := "step-1", Action := { Params := params } },
    Workspace := workspace, Platform := "alertflow" }

/-- The request of the specification's example. -/
def exampleRequest : ExecuteTaskRequest Unit :=
  requestOf "/ws"
    [ { Key := "url", Value := "https://example.com/repo.git" },
      { Key := "directory", Value := "repo" },
      { Key := "token", Value := "ghp_abc" } ]

/-- A request with a URL and no `directory` parameter. -/
def noDirectoryRequest : ExecuteTaskRequest Unit :=
  requestOf "/ws" [ { Key := "url", Value := "https://example.com/repo.git" } ]

/-! ## The calls a run makes -/

/-- The first call of a run: the "running" update (lines 48-62). -/
def firstUpdate (w : World Cfg) (request : ExecuteTaskRequest Cfg) : UpdateCall Cfg :=
  updateCall request
    (runningStep request (extractParams request.Workspace request.Step.Action.Params) (w.Now []))

/-- The clone call of lines 70-77 when the token is not empty, of lines 109-116
when it is. -/
def cloneOf (v : Vars) : CloneCall :=
  { path := v.directory, isBare := false,
    o := { Auth := if v.token ≠ "" then { Username := "abc123", Password := v.token }
                   else { Username := v.username, Password := v.password },
           URL := v.url, Progress := Writer.Stdout } }

/-! ## The three ways a run can go -/

theorem ExecuteTask_running_failed {Cfg : Type} (w : World Cfg)
    (request : ExecuteTaskRequest Cfg) (u : GoError)
    (h : w.UpdateStep [] (firstUpdate w request) = some u) :
    ExecuteTask w request =
      { resp := { Success := false }, err := some u,
        trace := [Event.update (firstUpdate w request) (some u)] } := by
  unfold firstUpdate at h
  simp [ExecuteTask, h, firstUpdate]

theorem ExecuteTask_clone_failed {Cfg : Type} (w : World Cfg)
    (request : ExecuteTaskRequest Cfg) (e : GoError)
    (h : w.UpdateStep [] (firstUpdate w request) = none)
    (hc : w.PlainClone [Event.update (firstUpdate w request) none]
      (cloneOf (extractParams request.Workspace request.Step.Action.Params)) = some e) :
    ExecuteTask w request =
      reportCloneError w request
        [Event.update (firstUpdate w request) none,
         Event.clone (cloneOf (extractParams request.Workspace request.Step.Action.Params))
           (some e)] e := by
  unfold firstUpdate at h hc
  unfold cloneOf at hc
  by_cases ht : (extractParams request.Workspace request.Step.Action.Params).token = ""
  · simp [ht] at hc
    simp [ExecuteTask, h, firstUpdate, cloneOf, ht, hc]
  · simp [ht] at hc
    simp [ExecuteTask, h, firstUpdate, cloneOf, ht, hc]

theorem ExecuteTask_clone_ok {Cfg : Type} (w : World Cfg)
    (request : ExecuteTaskRequest Cfg)
    (h : w.UpdateStep [] (firstUpdate w request) = none)
    (hc : w.PlainClone [Event.update (firstUpdate w request) none]
      (cloneOf (extractParams request.Workspace request.Step.Action.Params)) = none) :
    ExecuteTask w request =
      finishTask w request
        [Event.update (firstUpdate w request) none,
         Event.clone (cloneOf (extractParams request.Workspace request.Step.Action.Params))
           none] := by
  unfold firstUpdate at h hc
  unfold cloneOf at hc
  by_cases ht : (extractParams request.Workspace request.Step.Action.Params).token = ""
  · simp [ht] at hc
    simp [ExecuteTask, h, firstUpdate, cloneOf, ht, hc]
  · simp [ht] at hc
    simp [ExecuteTask, h, firstUpdate, cloneOf, ht, hc]

theorem reportCloneError_eq {Cfg : Type} (w : World Cfg) (request : ExecuteTaskRequest Cfg)
    (t : List (Event Cfg)) (e : GoError) :
    reportCloneError w request t e =
      { resp := { Success := false },
        err := w.UpdateStep t (updateCall request (errorStep request e (w.Now t))),
        trace := t ++ [Event.update (updateCall request (errorStep request e (w.Now t)))
          (w.UpdateStep t (updateCall request (errorStep request e (w.Now t))))] } := by
  unfold reportCloneError
  simp

theorem finishTask_eq {Cfg : Type} (w : World Cfg) (request : ExecuteTaskRequest Cfg)
    (t : List (Event Cfg)) :
    finishTask w request t =
      { resp := { Success :=
          (w.UpdateStep t (updateCall request (successStep request (w.Now t)))).isNone },
        err := w.UpdateStep t (updateCall request (successStep request (w.Now t))),
        trace := t ++ [Event.update (updateCall request (successStep request (w.Now t)))
          (w.UpdateStep t (updateCall request (successStep request (w.Now t))))] } := by
  unfold finishTask
  cases h : w.UpdateStep t (updateCall request (successStep request (w.Now t))) <;> simp [h]

/-- Every run of `ExecuteTask` has one of three shapes: the first update
failed; the clone failed and was reported; the clone succeeded and was
reported. -/
theorem ExecuteTask_shape {Cfg : Type} (w : World Cfg) (request : ExecuteTaskRequest Cfg) :
    (∃ u, ExecuteTask w request =
      { resp := { Success := false }, err := some u,
        trace := [Event.update (firstUpdate w request) (some u)] }) ∨
    (∃ e r now, ExecuteTask w request =
      { resp := { Success := false }, err := r,
        trace := [Event.update (firstUpdate w request) none,
          Event.clone (cloneOf (extractParams request.Workspace request.Step.Action.Params))
            (some e),
          Event.update (updateCall request (errorStep request e now)) r] }) ∨
    (∃ r now, ExecuteTask w request =
      { resp := { Success := r.isNone }, err := r,
        trace := [Event.update (firstUpdate w request) none,
          Event.clone (cloneOf (extractParams request.Workspace request.Step.Action.Params))
            none,
          Event.update (updateCall request (successStep request now)) r] }) := by
  cases h : w.UpdateStep [] (firstUpdate w request) with
  | some u => exact Or.inl ⟨u, ExecuteTask_running_failed w request u h⟩
  | none =>
    cases hc : w.PlainClone [Event.update (firstUpdate w request) none]
        (cloneOf (extractParams request.Workspace request.Step.Action.Params)) with
    | some e =>
      have hrun := ExecuteTask_clone_failed w request e h hc
      rw [reportCloneError_eq] at hrun
      exact Or.inr (Or.inl ⟨e, _, _, hrun⟩)
    | none =>
      have hrun := ExecuteTask_clone_ok w request h hc
      rw [finishTask_eq] at hrun
      exact Or.inr (Or.inr ⟨_, _, hrun⟩)

/-! ## Claims on `ExecuteTask` -/

/-- C1: when the first ("running") update of a run succeeds, the run calls the
clone exactly once; its credentials are the fixed user name "abc123" with the
token as password when the extracted token is not empty, and the extracted
user name and password, whatever they are, when the token is empty. -/
theorem credential_selection {Cfg : Type} (w : World Cfg) (request : ExecuteTaskRequest Cfg)
    (c0 : UpdateCall Cfg)
    (h : (ExecuteTask w request).trace.head? = some (Event.update c0 none)) :
    ∃ c, clonesOf (ExecuteTask w request).trace = [c] ∧
      ((extractParams request.Workspace request.Step.Action.Params).token ≠ "" →
        c.o.Auth =
          { Username := "abc123",
            Password := (extractParams request.Workspace request.Step.Action.Params).token }) ∧
      ((extractParams request.Workspace request.Step.Action.Params).token = "" →
        c.o.Auth =
          { Username := (extractParams request.Workspace request.Step.Action.Params).username,
            Password :=
              (extractParams request.Workspace request.Step.Action.Params).password }) := by
  refine ⟨cloneOf (extractParams request.Workspace request.Step.Action.Params), ?_, ?_, ?_⟩
  · rcases ExecuteTask_shape w request with ⟨u, hu⟩ | ⟨e, r, now, he⟩ | ⟨r, now, hr⟩
    · rw [hu] at h
      simp at h
    · rw [he]
      simp [clonesOf]
    · rw [hr]
      simp [clonesOf]
  · intro ht
    simp [cloneOf, ht]
  · intro ht
    simp [cloneOf, ht]

/-- C1, on the request of the example: the token "ghp_abc" is sent as the
password of "abc123". -/
theorem credential_selection_witness :
    (ExecuteTask world404 exampleRequest).trace.head? =
        some (Event.update (firstUpdate world404 exampleRequest) none) ∧
    ∃ c, clonesOf (ExecuteTask world404 exampleRequest).trace = [c] ∧
      ((extractParams exampleRequest.Workspace exampleRequest.Step.Action.Params).token ≠ "" →
        c.o.Auth =
          { Username := "abc123",
            Password :=
              (extractParams exampleRequest.Workspace exampleRequest.Step.Action.Params).token }) ∧
      ((extractParams exampleRequest.Workspace exampleRequest.Step.Action.Params).token = "" →
        c.o.Auth =
          { Username :=
              (extractParams exampleRequest.Workspace exampleRequest.Step.Action.Params).username,
            Password :=
              (extractParams exampleRequest.Workspace
                exampleRequest.Step.Action.Params).password }) :=
  ⟨by decide,
    credential_selection world404 exampleRequest (firstUpdate world404 exampleRequest)
      (by decide)⟩

/-- C2 as stated fails: in a world where the clone succeeds and the "success"
update is refused, the clone has succeeded and the response is not a success. -/
theorem clone_success_response_counterexample :
    (∃ c, Event.clone c none ∈ (ExecuteTask worldReportDown exampleRequest).trace) ∧
    ¬ ((ExecuteTask worldReportDown exampleRequest).resp.Success = true) :=
  ⟨⟨cloneOf (extractParams exampleRequest.Workspace exampleRequest.Step.Action.Params),
    by decide⟩, by decide⟩

/-- C2, amended: when the clone succeeds, the run sends exactly one "running"
update, then calls the clone, then sends exactly one "success" update, and no
"error" update; the response has `Success = true` with a nil error when that
last update call succeeds, and `Success = false` with that call's error when
it fails. -/
theorem clone_success_updates {Cfg : Type} (w : World Cfg) (request : ExecuteTaskRequest Cfg)
    (c : CloneCall) (h : Event.clone c none ∈ (ExecuteTask w request).trace) :
    ∃ c1 c2 r,
      (ExecuteTask w request).trace =
        [Event.update c1 none, Event.clone c none, Event.update c2 r] ∧
      (updatesOf (ExecuteTask w request).trace).map (fun s => s.Status) =
        ["running", "success"] ∧
      (ExecuteTask w request).err = r ∧
      (r = none → (ExecuteTask w request).resp.Success = true) ∧
      (r ≠ none → (ExecuteTask w request).resp.Success = false) := by
  rcases ExecuteTask_shape w request with ⟨u, hu⟩ | ⟨e, r, now, he⟩ | ⟨r, now, hr⟩
  · rw [hu] at h
    simp at h
  · rw [he] at h
    simp at h
  · rw [hr] at h ⊢
    simp at h
    subst h
    refine ⟨_, _, r, rfl, ?_, rfl, ?_, ?_⟩
    · simp [updatesOf, firstUpdate, updateCall, runningStep, successStep]
    · intro hn
      simp [hn]
    · intro hn
      cases r with
      | none => exact absurd rfl hn
      | some u => rfl

/-- C2, amended, on the request of the example in a world where all calls
succeed. -/
theorem clone_success_updates_witness :
    Event.clone (cloneOf (extractParams exampleRequest.Workspace
        exampleRequest.Step.Action.Params)) none ∈ (ExecuteTask worldOk exampleRequest).trace ∧
    ∃ c1 c2 r,
      (ExecuteTask worldOk exampleRequest).trace =
        [Event.update c1 none,
         Event.clone (cloneOf (extractParams exampleRequest.Workspace
           exampleRequest.Step.Action.Params)) none,
         Event.update c2 r] ∧
      (updatesOf (ExecuteTask worldOk exampleRequest).trace).map (fun s => s.Status) =
        ["running", "success"] ∧
      (ExecuteTask worldOk exampleRequest).err = r ∧
      (r = none → (ExecuteTask worldOk exampleRequest).resp.Success = true) ∧
      (r ≠ none → (ExecuteTask worldOk exampleRequest).resp.Success = false) :=
  ⟨by decide,
    clone_success_updates worldOk exampleRequest
      (cloneOf (extractParams exampleRequest.Workspace exampleRequest.Step.Action.Params))
      (by decide)⟩

/-- C3: when the clone fails with the error `e`, the run sends exactly one
"running" update followed by exactly one "error" update, one of whose message
lines is the text of `e`; it sends no "success" update and the response has
`Success = false`. -/
theorem clone_failure_updates {Cfg : Type} (w : World Cfg) (request : ExecuteTaskRequest Cfg)
    (c : CloneCall) (e : GoError)
    (h : Event.clone c (some e) ∈ (ExecuteTask w request).trace) :
    ∃ s1 s2,
      updatesOf (ExecuteTask w request).trace = [s1, s2] ∧
      s1.Status = "running" ∧
      s2.Status = "error" ∧
      (∃ l ∈ linesOf s2, l.Content = e.Error) ∧
      (∀ s ∈ updatesOf (ExecuteTask w request).trace, s.Status ≠ "success") ∧
      (ExecuteTask w request).resp.Success = false := by
  rcases ExecuteTask_shape w request with ⟨u, hu⟩ | ⟨e1, r, now, he⟩ | ⟨r, now, hr⟩
  · rw [hu] at h
    simp at h
  · rw [he] at h ⊢
    simp at h
    obtain ⟨-, h⟩ := h
    subst h
    refine ⟨(firstUpdate w request).step, errorStep request e now, ?_, ?_, ?_, ?_, ?_, rfl⟩
    · simp [updatesOf, updateCall]
    · simp [firstUpdate, updateCall, runningStep]
    · simp [errorStep]
    · exact ⟨{ Content := e.Error, Color := "danger" }, by simp [linesOf, errorStep], rfl⟩
    · intro s hs
      simp [updatesOf, firstUpdate, updateCall, runningStep, errorStep] at hs
      rcases hs with rfl | rfl <;> simp
  · rw [hr] at h
    simp at h

/-- C3, on the request of the example (url "https://example.com/repo.git",
directory "repo", token "ghp_abc", workspace "/ws") with a clone that fails
with a 404. -/
theorem clone_failure_updates_witness :
    Event.clone (cloneOf (extractParams exampleRequest.Workspace
        exampleRequest.Step.Action.Params))
      (some (errorsNew "unexpected client error: 404 Not Found")) ∈
        (ExecuteTask world404 exampleRequest).trace ∧
    ∃ s1 s2,
      updatesOf (ExecuteTask world404 exampleRequest).trace = [s1, s2] ∧
      s1.Status = "running" ∧
      s2.Status = "error" ∧
      (∃ l ∈ linesOf s2,
        l.Content = (errorsNew "unexpected client error: 404 Not Found").Error) ∧
      (∀ s ∈ updatesOf (ExecuteTask world404 exampleRequest).trace, s.Status ≠ "success") ∧
      (ExecuteTask world404 exampleRequest).resp.Success = false :=
  ⟨by decide,
    clone_failure_updates world404 exampleRequest
      (cloneOf (extractParams exampleRequest.Workspace exampleRequest.Step.Action.Params))
      (errorsNew "unexpected client error: 404 Not Found") (by decide)⟩

/-- C4, the run at the failing input: on the request of the example, with a
clone that fails with a 404 and an "error" update that succeeds, the clone's
error is in the trace and the error `ExecuteTask` returns is nil. -/
theorem clone_error_not_returned :
    (ExecuteTask world404 exampleRequest).trace =
      [Event.update (firstUpdate world404 exampleRequest) none,
       Event.clone (cloneOf (extractParams exampleRequest.Workspace
         exampleRequest.Step.Action.Params))
         (some (errorsNew "unexpected client error: 404 Not Found")),
       Event.update (updateCall exampleRequest (errorStep exampleRequest
         (errorsNew "unexpected client error: 404 Not Found") 2)) none] ∧
    (ExecuteTask world404 exampleRequest).err = none ∧
    (ExecuteTask world404 exampleRequest).resp.Success = false := by
  decide

/-- Whenever the clone fails and the "error" update that reports it succeeds,
the error `ExecuteTask` returns is nil. -/
theorem clone_error_dropped {Cfg : Type} (w : World Cfg) (request : ExecuteTaskRequest Cfg)
    (c : CloneCall) (e : GoError) (c2 : UpdateCall Cfg)
    (hc : Event.clone c (some e) ∈ (ExecuteTask w request).trace)
    (h : (ExecuteTask w request).trace.getLast? = some (Event.update c2 none)) :
    (ExecuteTask w request).err = none := by
  rcases ExecuteTask_shape w request with ⟨u, hu⟩ | ⟨e1, r, now, he⟩ | ⟨r, now, hr⟩
  · rw [hu] at hc
    simp at hc
  · rw [he] at h ⊢
    simp at h
    simp [h.2]
  · rw [hr] at hc
    simp at hc

/-- C5: when the clone fails with the error `e` and an update call of the run
fails with the error `u`, that call is the "error" update and `ExecuteTask`
returns `Success = false` and the error `u`; the error returned is not `e`
(unless the two have the same text). -/
theorem report_failure_masks_clone_error {Cfg : Type} (w : World Cfg)
    (request : ExecuteTaskRequest Cfg) (c : CloneCall) (e : GoError) (c2 : UpdateCall Cfg)
    (u : GoError)
    (hc : Event.clone c (some e) ∈ (ExecuteTask w request).trace)
    (hu : Event.update c2 (some u) ∈ (ExecuteTask w request).trace) :
    c2.step.Status = "error" ∧
    (ExecuteTask w request).resp.Success = false ∧
    (ExecuteTask w request).err = some u ∧
    (u ≠ e → (ExecuteTask w request).err ≠ some e) := by
  rcases ExecuteTask_shape w request with ⟨u1, hu1⟩ | ⟨e1, r, now, he⟩ | ⟨r, now, hr⟩
  · rw [hu1] at hc
    simp at hc
  · rw [he] at hc hu ⊢
    simp at hc hu
    obtain ⟨hc2, rfl⟩ := hu
    subst hc2
    refine ⟨by simp [updateCall, errorStep], rfl, rfl, ?_⟩
    intro hne heq
    simp at heq
    exact hne heq
  · rw [hr] at hc
    simp at hc

/-- C5, on the request of the example, with a clone that fails with a 404 and
a host that refuses the "error" update. -/
theorem report_failure_masks_clone_error_witness :
    (Event.clone (cloneOf (extractParams exampleRequest.Workspace
        exampleRequest.Step.Action.Params))
      (some (errorsNew "unexpected client error: 404 Not Found")) ∈
        (ExecuteTask world404Down exampleRequest).trace ∧
     Event.update (updateCall exampleRequest (errorStep exampleRequest
        (errorsNew "unexpected client error: 404 Not Found") 2))
      (some (errorsNew "connection refused")) ∈
        (ExecuteTask world404Down exampleRequest).trace) ∧
    ((updateCall exampleRequest (errorStep exampleRequest
        (errorsNew "unexpected client error: 404 Not Found") 2)).step.Status = "error" ∧
     (ExecuteTask world404Down exampleRequest).resp.Success = false ∧
     (ExecuteTask world404Down exampleRequest).err = some (errorsNew "connection refused") ∧
     (errorsNew "connection refused" ≠ errorsNew "unexpected client error: 404 Not Found" →
       (ExecuteTask world404Down exampleRequest).err ≠
         some (errorsNew "unexpected client error: 404 Not Found"))) :=
  ⟨⟨by decide, by decide⟩,
    report_failure_masks_clone_error world404Down exampleRequest
      (cloneOf (extractParams exampleRequest.Workspace exampleRequest.Step.Action.Params))
      (errorsNew "unexpected client error: 404 Not Found")
      (updateCall exampleRequest (errorStep exampleRequest
        (errorsNew "unexpected client error: 404 Not Found") 2))
      (errorsNew "connection refused") (by decide) (by decide)⟩

/-- C10: when the first ("running") update call fails with the error `u`,
`ExecuteTask` returns `Success = false` and `u` at once: that update is the
only call of the run, so the clone is not called and no other update is sent. -/
theorem running_failure_returns_at_once {Cfg : Type} (w : World Cfg)
    (request : ExecuteTaskRequest Cfg) (c0 : UpdateCall Cfg) (u : GoError)
    (h : (ExecuteTask w request).trace.head? = some (Event.update c0 (some u))) :
    (ExecuteTask w request).resp.Success = false ∧
    (ExecuteTask w request).err = some u ∧
    (ExecuteTask w request).trace = [Event.update c0 (some u)] ∧
    c0.step.Status = "running" ∧
    clonesOf (ExecuteTask w request).trace = [] ∧
    updatesOf (ExecuteTask w request).trace = [c0.step] := by
  rcases ExecuteTask_shape w request with ⟨u1, hu1⟩ | ⟨e1, r, now, he⟩ | ⟨r, now, hr⟩
  · rw [hu1] at h ⊢
    simp at h
    obtain ⟨rfl, rfl⟩ := h
    simp [clonesOf, updatesOf, firstUpdate, updateCall, runningStep]
  · rw [he] at h
    simp at h
  · rw [hr] at h
    simp at h

/-- C10, on the request of the example with a host that refuses every update. -/
theorem running_failure_returns_at_once_witness :
    (ExecuteTask worldHostDown exampleRequest).trace.head? =
      some (Event.update (firstUpdate worldHostDown exampleRequest)
        (some (errorsNew "connection refused"))) ∧
    ((ExecuteTask worldHostDown exampleRequest).resp.Success = false ∧
     (ExecuteTask worldHostDown exampleRequest).err = some (errorsNew "connection refused") ∧
     (ExecuteTask worldHostDown exampleRequest).trace =
       [Event.update (firstUpdate worldHostDown exampleRequest)
         (some (errorsNew "connection refused"))] ∧
     (firstUpdate worldHostDown exampleRequest).step.Status = "running" ∧
     clonesOf (ExecuteTask worldHostDown exampleRequest).trace = [] ∧
     updatesOf (ExecuteTask worldHostDown exampleRequest).trace =
       [(firstUpdate worldHostDown exampleRequest).step]) :=
  ⟨by decide,
    running_failure_returns_at_once worldHostDown exampleRequest
      (firstUpdate worldHostDown exampleRequest) (errorsNew "connection refused")
      (by decide)⟩

/-! ## Claims on parameter extraction -/

theorem extractParams_append (workspace : String) (l : List Params) (p : Params) :
    extractParams workspace (l ++ [p]) = paramStep workspace (extractParams workspace l) p := by
  simp [extractParams, List.foldl_append]

theorem lastValue?_append (k : String) (l : List Params) (p : Params) :
    lastValue? k (l ++ [p]) = if p.Key = k then some p.Value else lastValue? k l := by
  unfold lastValue?
  by_cases h : p.Key = k
  · simp [List.filter_append, h]
  · simp [List.filter_append, h]

theorem extractParams_eq (workspace : String) (params : List Params) :
    extractParams workspace params =
      { url := lastValue "url" params,
        directory := resolvedDirectory workspace params,
        username := lastValue "username" params,
        password := lastValue "password" params,
        token := lastValue "token" params } := by
  induction params using List.reverseRecOn with
  | nil => rfl
  | append_singleton l p ih =>
    rw [extractParams_append, ih]
    unfold paramStep lastValue resolvedDirectory
    simp only [lastValue?_append]
    by_cases h1 : p.Key = "url"
    · simp [h1]
    · by_cases h2 : p.Key = "directory"
      · simp [h2]
      · by_cases h3 : p.Key = "username"
        · simp [h3]
        · by_cases h4 : p.Key = "password"
          · simp [h4]
          · by_cases h5 : p.Key = "token"
            · simp [h5]
            · simp [h1, h2, h3, h4, h5]

/-- C7: for every workspace and parameter list, the url, user name, password
and token `ExecuteTask` uses are each the value of the last entry whose key is
exactly that key, and the empty string when there is no such entry; the
directory it uses is built from the value of the last entry with key
"directory" (behind the workspace and a slash) and is the empty string when
there is no such entry.  Entries with another key play no part: each value is
the same on the list restricted to the entries with its key. -/
theorem last_value_wins (workspace : String) (params : List Params) :
    ((extractParams workspace params).url = lastValue "url" params ∧
     (extractParams workspace params).username = lastValue "username" params ∧
     (extractParams workspace params).password = lastValue "password" params ∧
     (extractParams workspace params).token = lastValue "token" params ∧
     (extractParams workspace params).directory = resolvedDirectory workspace params) ∧
    ((extractParams workspace (params.filter fun p => p.Key = "url")).url =
       (extractParams workspace params).url ∧
     (extractParams workspace (params.filter fun p => p.Key = "username")).username =
       (extractParams workspace params).username ∧
     (extractParams workspace (params.filter fun p => p.Key = "password")).password =
       (extractParams workspace params).password ∧
     (extractParams workspace (params.filter fun p => p.Key = "token")).token =
       (extractParams workspace params).token ∧
     (extractParams workspace (params.filter fun p => p.Key = "directory")).directory =
       (extractParams workspace params).directory) := by
  simp [extractParams_eq, lastValue, lastValue?, resolvedDirectory, List.filter_filter]

/-- C7, on a list with a duplicated key: the last value is used even though it
is empty and an earlier one is not, and an entry with an unknown key changes
nothing. -/
theorem last_value_wins_example :
    extractParams "/ws"
      [ { Key := "url", Value := "https://example.com/repo.git" },
        { Key := "branch", Value := "main" },
        { Key := "url", Value := "" } ] = {} := by
  decide

/-! ## Claims on the destination directory -/

/-- C6 as stated fails: for a request with no `directory` parameter in the
workspace "/ws", the path passed to the clone and the path in the "running"
message are the empty string, not the workspace followed by a slash. -/
theorem destination_default_counterexample :
    (∃ c r, Event.clone c r ∈ (ExecuteTask worldOk noDirectoryRequest).trace ∧
      c.path = "" ∧
      c.path ≠ noDirectoryRequest.Workspace ++ "/" ++
        lastValue "directory" noDirectoryRequest.Step.Action.Params) ∧
    (∃ c1 r, (ExecuteTask worldOk noDirectoryRequest).trace.head? = some (Event.update c1 r) ∧
      linesOf c1.step =
        [{ Content := "Cloning repository https://example.com/repo.git to " }] ∧
      linesOf c1.step ≠
        [{ Content := "Cloning repository https://example.com/repo.git to " ++
            (noDirectoryRequest.Workspace ++ "/" ++
              lastValue "directory" noDirectoryRequest.Step.Action.Params) }]) :=
  ⟨⟨cloneOf (extractParams noDirectoryRequest.Workspace noDirectoryRequest.Step.Action.Params),
      none, by decide, by decide, by decide⟩,
    ⟨firstUpdate worldOk noDirectoryRequest, none, by decide, by decide, by decide⟩⟩

/-- C6, amended: for every request, the destination named in the "running"
message and passed to the clone is the workspace, a slash and the value of the
last `directory` parameter when the request carries one, and the empty string
when it carries none. -/
theorem destination_resolution {Cfg : Type} (w : World Cfg) (request : ExecuteTaskRequest Cfg) :
    (∃ c1 r, (ExecuteTask w request).trace.head? = some (Event.update c1 r) ∧
      c1.step.Status = "running" ∧
      linesOf c1.step =
        [{ Content := "Cloning repository " ++ lastValue "url" request.Step.Action.Params ++
            " to " ++ resolvedDirectory request.Workspace request.Step.Action.Params }]) ∧
    (∀ c r, Event.clone c r ∈ (ExecuteTask w request).trace →
      c.path = resolvedDirectory request.Workspace request.Step.Action.Params) := by
  have hfirst : (firstUpdate w request).step.Status = "running" ∧
      linesOf (firstUpdate w request).step =
        [{ Content := "Cloning repository " ++ lastValue "url" request.Step.Action.Params ++
            " to " ++ resolvedDirectory request.Workspace request.Step.Action.Params }] := by
    simp [firstUpdate, updateCall, runningStep, linesOf, extractParams_eq]
  have hpath : (cloneOf (extractParams request.Workspace request.Step.Action.Params)).path =
      resolvedDirectory request.Workspace request.Step.Action.Params := by
    simp [cloneOf, extractParams_eq]
  rcases ExecuteTask_shape w request with ⟨u, hu⟩ | ⟨e, r, now, he⟩ | ⟨r, now, hr⟩
  · rw [hu]
    refine ⟨⟨firstUpdate w request, some u, rfl, hfirst⟩, ?_⟩
    intro c r hc
    simp at hc
  · rw [he]
    refine ⟨⟨firstUpdate w request, none, rfl, hfirst⟩, ?_⟩
    intro c r1 hc
    simp at hc
    rw [hc.1]
    exact hpath
  · rw [hr]
    refine ⟨⟨firstUpdate w request, none, rfl, hfirst⟩, ?_⟩
    intro c r1 hc
    simp at hc
    rw [hc.1]
    exact hpath

/-- C6, amended, on the example: workspace "/ws" and directory "repo" give the
clone path "/ws/repo". -/
theorem destination_resolution_witness :
    Event.clone (cloneOf (extractParams exampleRequest.Workspace
        exampleRequest.Step.Action.Params)) none ∈ (ExecuteTask worldOk exampleRequest).trace ∧
    (cloneOf (extractParams exampleRequest.Workspace exampleRequest.Step.Action.Params)).path =
      resolvedDirectory exampleRequest.Workspace exampleRequest.Step.Action.Params ∧
    resolvedDirectory exampleRequest.Workspace exampleRequest.Step.Action.Params = "/ws/repo" :=
  ⟨by decide,
    (destination_resolution worldOk exampleRequest).2
      (cloneOf (extractParams exampleRequest.Workspace exampleRequest.Step.Action.Params))
      none (by decide),
    by decide⟩

/-! ## Claims on `Info` and `EndpointRequest` -/

/-- C8: for every request, `Info` returns a nil error and a descriptor with
exactly five parameters, of keys url, directory, username, password and token
in that order and without repetition; the description of the directory
parameter is the fixed text followed by the workspace of the request, so it
contains the workspace; with that description blanked, the descriptor is the
same for every request. -/
theorem info_descriptor {Cfg : Type} (request : InfoRequest Cfg) :
    (Info request).2 = none ∧
    (Info request).1.Action.Params.length = 5 ∧
    (Info request).1.Action.Params.map (fun p => p.Key) =
      ["url", "directory", "username", "password", "token"] ∧
    ((Info request).1.Action.Params.map (fun p => p.Key)).Nodup ∧
    ((Info request).1.Action.Params.filter (fun p => p.Key = "directory")).map
        (fun p => p.Description) =
      ["Path to clone the repository to. The path prefix is the workspace directory: " ++
        request.Workspace] ∧
    (∃ before after,
      ((Info request).1.Action.Params.filter (fun p => p.Key = "directory")).map
          (fun p => p.Description) =
        [before ++ request.Workspace ++ after]) ∧
    (∀ (Cfg2 : Type) (request2 : InfoRequest Cfg2),
      withoutDirectoryDescription (Info request2).1 =
        withoutDirectoryDescription (Info request).1) := by
  refine ⟨rfl, rfl, rfl, by simp [Info], by simp [Info], ?_, ?_⟩
  · exact ⟨"Path to clone the repository to. The path prefix is the workspace directory: ", "",
      by simp [Info]⟩
  · intro Cfg2 request2
    simp [Info, withoutDirectoryDescription]

/-- C9: for every request, `EndpointRequest` returns `Success = false` and a
non-nil error whose message is exactly "not implemented"; the result is the
same for every request. -/
theorem endpoint_not_implemented {Cfg : Type} (request : EndpointRequestArgs Cfg) :
    (EndpointRequest request).1.Success = false ∧
    (∃ e, (EndpointRequest request).2 = some e ∧ e.Error = "not implemented") ∧
    (∀ (Cfg2 : Type) (request2 : EndpointRequestArgs Cfg2),
      EndpointRequest request2 = EndpointRequest request) :=
  ⟨rfl, ⟨errorsNew "not implemented", rfl, rfl⟩, fun _ _ => rfl⟩

end RpGit
